import Mathlib

/-!
Shallow embedding of the swarm-relay message-routing library
(packages/swarm-relay): the SharedWorker hub script
(lib/worker/swarm-relay-worker.ts), the client-side SwarmRelay class
(lib/swarm-relay.ts), the SharedWorkerTransport
(lib/transport/shared-worker-transport.ts) and the
MockTransportAdapter (lib/testing/mock-transport-adapter.ts),
together with proofs of the routing, dispatch, lifecycle and
error-handling properties the specification states.

Opaque TypeScript values are modelled as follows: message payloads as a
type parameter, handler functions as natural-number identifiers paired
with a behaviour oracle saying which handlers throw, MessagePort
endpoints as natural-number identifiers, Error objects as an explicit
datatype distinguishing SwarmRelayError values (which carry a code)
from arbitrary injected errors.
-/

/-- ConnectionState from lib/types.ts. -/
inductive ConnectionState where
  | Disconnected
  | Connecting
  | Connected
  | Error
deriving DecidableEq, Repr

/-- SwarmRelayErrorCode from lib/errors.ts. -/
inductive SwarmRelayErrorCode where
  | ConnectionFailed
  | NotConnected
  | SendFailed
  | TransportError
  | InvalidMessage
  | WorkerNotSupported
deriving DecidableEq, Repr

/-- A JavaScript Error value: either a SwarmRelayError (message and code,
from lib/errors.ts) or an arbitrary other Error object (modelled by a tag). -/
inductive ErrValue where
  | relayError (message : String) (code : SwarmRelayErrorCode)
  | plain (tag : Nat)
deriving DecidableEq, Repr

/-- SwarmMessage from lib/types.ts; the payload type is a parameter since
the runtime never inspects payloads. An absent target field is none. -/
structure SwarmMessage (A : Type) where
  id : String
  source : String
  target : Option String
  event : String
  payload : A
  timestamp : Nat
deriving DecidableEq, Repr

/-! ## Hub registry and router: the SharedWorker script of
lib/worker/swarm-relay-worker.ts (returned by getWorkerScript).

The worker keeps a JavaScript Map from clientId to MessagePort.  We model
MessagePorts by natural numbers and the Map by an association list with
JavaScript Map semantics: set on an existing key updates it in place,
set on a fresh key appends, delete removes, iteration is in list order. -/

/-- A MessagePort endpoint identity. -/
abbrev PortId := Nat

/-- JavaScript Map.prototype.set: update in place if the key exists,
append otherwise. -/
def mapSet (m : List (String × PortId)) (k : String) (v : PortId) :
    List (String × PortId) :=
  match m with
  | [] => [(k, v)]
  | (k0, v0) :: rest =>
    if k0 = k then (k, v) :: rest else (k0, v0) :: mapSet rest k v

/-- JavaScript Map.prototype.get (none models undefined). -/
def mapGet (m : List (String × PortId)) (k : String) : Option PortId :=
  match m with
  | [] => none
  | (k0, v0) :: rest => if k0 = k then some v0 else mapGet rest k

/-- JavaScript Map.prototype.delete. -/
def mapDelete (m : List (String × PortId)) (k : String) :
    List (String × PortId) :=
  match m with
  | [] => []
  | (k0, v0) :: rest =>
    if k0 = k then rest else (k0, v0) :: mapDelete rest k

/-- The data field of a message arriving at the worker on some port:
the three recognised type tags, or anything else (ignored by the script). -/
inductive HubData (A : Type) where
  | register (clientId : String)
  | disconnect
  | message (msg : SwarmMessage A)
  | other
deriving DecidableEq, Repr

/-- A message the worker posts back out of a port. -/
inductive OutMsg (A : Type) where
  | registered (clientId : String)
  | message (msg : SwarmMessage A)
deriving DecidableEq, Repr

/-- Hub state: the ports Map, plus the per-connection clientId closure
variable of handleConnect (indexed by the connection's port). -/
structure HubState (A : Type) where
  ports : List (String × PortId)
  connVar : PortId → Option String

/-- JavaScript truthiness of the optional string field message.target:
undefined and the empty string are falsy. -/
def strTruthy : Option String → Bool
  | none => false
  | some s => !s.isEmpty

/-- The broadcast branch of the worker's routing code: forward to every
port in the Map whose key differs from message.source, in Map order. -/
def broadcastForward (ports : List (String × PortId)) (msg : SwarmMessage A) :
    List (PortId × OutMsg A) :=
  (ports.filter (fun e => e.1 ≠ msg.source)).map
    (fun e => (e.2, OutMsg.message msg))

/-- The routing branch of the worker's handleMessage for a
data.type of swarm_message: if message.target is truthy, look it up and
forward to that single port when found; otherwise broadcast. -/
def routeMessage (ports : List (String × PortId)) (msg : SwarmMessage A) :
    List (PortId × OutMsg A) :=
  if strTruthy msg.target then
    match mapGet ports (msg.target.getD "") with
    | some p => [(p, OutMsg.message msg)]
    | none => []
  else
    broadcastForward ports msg

/-- One step of the worker's per-port handleMessage: the new hub state and
the list of (port, posted message) pairs it emits. -/
def hubStep (st : HubState A) (p : PortId) (data : HubData A) :
    HubState A × List (PortId × OutMsg A) :=
  match data with
  | HubData.register cid =>
    ({ ports := mapSet st.ports cid p,
       connVar := fun q => if q = p then some cid else st.connVar q },
     [(p, OutMsg.registered cid)])
  | HubData.disconnect =>
    match st.connVar p with
    | some cid =>
      ({ ports := mapDelete st.ports cid,
         connVar := fun q => if q = p then none else st.connVar q }, [])
    | none => (st, [])
  | HubData.message msg => (st, routeMessage st.ports msg)
  | HubData.other => (st, [])

/-- Run the hub over a sequence of (port, data) events, discarding outputs. -/
def hubRun (st : HubState A) (events : List (PortId × HubData A)) : HubState A :=
  events.foldl (fun s e => (hubStep s e.1 e.2).1) st

/-- The empty hub as the worker script starts. -/
def initHub (A : Type) : HubState A :=
  { ports := [], connVar := fun _ => none }

/-! ### Registry map lemmas -/

theorem mapGet_mapSet_self (m : List (String × PortId)) (k : String) (v : PortId) :
    mapGet (mapSet m k v) k = some v := by
  induction m with
  | nil => simp [mapSet, mapGet]
  | cons e rest ih =>
    obtain ⟨k0, v0⟩ := e
    by_cases h : k0 = k
    · simp [mapSet, mapGet, h]
    · simp [mapSet, mapGet, h, ih]

theorem mapGet_mapSet_ne (m : List (String × PortId)) (k k' : String) (v : PortId)
    (hk : k' ≠ k) : mapGet (mapSet m k v) k' = mapGet m k' := by
  have hk' : ¬k = k' := fun h => hk h.symm
  induction m with
  | nil => simp [mapSet, mapGet, hk']
  | cons e rest ih =>
    obtain ⟨k0, v0⟩ := e
    by_cases h : k0 = k
    · subst h
      simp [mapSet, mapGet, hk']
    · simp [mapSet, mapGet, h, ih]

theorem mem_keys_mapSet (m : List (String × PortId)) (k x : String) (v : PortId) :
    x ∈ (mapSet m k v).map Prod.fst ↔ x ∈ m.map Prod.fst ∨ x = k := by
  induction m with
  | nil => simp [mapSet]
  | cons e rest ih =>
    obtain ⟨k0, v0⟩ := e
    by_cases h : k0 = k
    · subst h
      simp [mapSet]
      tauto
    · simp [mapSet, h, ih]
      tauto

theorem nodup_keys_mapSet (m : List (String × PortId)) (k : String) (v : PortId)
    (h : (m.map Prod.fst).Nodup) : ((mapSet m k v).map Prod.fst).Nodup := by
  induction m with
  | nil => simp [mapSet]
  | cons e rest ih =>
    obtain ⟨k0, v0⟩ := e
    rw [List.map_cons, List.nodup_cons] at h
    by_cases hk : k0 = k
    · subst hk
      rw [show mapSet ((k0, v0) :: rest) k0 v = (k0, v) :: rest from by simp [mapSet]]
      rw [List.map_cons, List.nodup_cons]
      exact h
    · rw [show mapSet ((k0, v0) :: rest) k v = (k0, v0) :: mapSet rest k v from by
        simp [mapSet, hk]]
      rw [List.map_cons, List.nodup_cons]
      refine ⟨?_, ih h.2⟩
      intro hx
      rcases (mem_keys_mapSet rest k k0 v).1 hx with h1 | h1
      · exact h.1 h1
      · exact hk h1

theorem keys_mapDelete_sublist (m : List (String × PortId)) (k : String) :
    ((mapDelete m k).map Prod.fst).Sublist (m.map Prod.fst) := by
  induction m with
  | nil => simp [mapDelete]
  | cons e rest ih =>
    obtain ⟨k0, v0⟩ := e
    by_cases h : k0 = k
    · rw [show mapDelete ((k0, v0) :: rest) k = rest from by simp [mapDelete, h]]
      exact List.sublist_cons_self _ _
    · rw [show mapDelete ((k0, v0) :: rest) k = (k0, v0) :: mapDelete rest k from by
        simp [mapDelete, h]]
      simpa using (ih.cons₂ k0)

theorem nodup_keys_mapDelete (m : List (String × PortId)) (k : String)
    (h : (m.map Prod.fst).Nodup) : ((mapDelete m k).map Prod.fst).Nodup :=
  (keys_mapDelete_sublist m k).nodup h

/-- Every hub step preserves distinctness of Registry keys. -/
theorem hubStep_nodup_keys {A : Type} (st : HubState A) (p : PortId) (d : HubData A)
    (h : (st.ports.map Prod.fst).Nodup) :
    (((hubStep st p d).1.ports).map Prod.fst).Nodup := by
  cases d with
  | register cid => exact nodup_keys_mapSet _ _ _ h
  | disconnect =>
    cases hc : st.connVar p with
    | some cid => simpa [hubStep, hc] using nodup_keys_mapDelete _ _ h
    | none => simpa [hubStep, hc] using h
  | message msg => exact h
  | other => exact h

theorem hubRun_nodup_keys {A : Type} (events : List (PortId × HubData A)) :
    ∀ st : HubState A, (st.ports.map Prod.fst).Nodup →
      (((hubRun st events).ports).map Prod.fst).Nodup := by
  induction events with
  | nil => intro st h; simpa [hubRun] using h
  | cons e rest ih =>
    intro st h
    have : hubRun st (e :: rest) = hubRun (hubStep st e.1 e.2).1 rest := rfl
    rw [this]
    exact ih _ (hubStep_nodup_keys st e.1 e.2 h)

/-! ### Claims about the hub router -/

/-- C1: for every envelope routed by the hub whose target is absent, the
router forwards the envelope to exactly those registered endpoints whose
ClientId is not equal to envelope.source; an endpoint registered only
under envelope.source never receives the broadcast, and the Registry is
left unchanged. -/
theorem c1_broadcast_all_but_source {A : Type} (st : HubState A) (p : PortId)
    (msg : SwarmMessage A) (htgt : msg.target = none) :
    (hubStep st p (HubData.message msg)).1 = st ∧
    (∀ q, (q, OutMsg.message msg) ∈ (hubStep st p (HubData.message msg)).2 ↔
      ∃ cid, (cid, q) ∈ st.ports ∧ cid ≠ msg.source) ∧
    (∀ q, (∀ cid, (cid, q) ∈ st.ports → cid = msg.source) →
      (q, OutMsg.message msg) ∉ (hubStep st p (HubData.message msg)).2) := by
  have hroute : (hubStep st p (HubData.message msg)).2 = broadcastForward st.ports msg := by
    simp [hubStep, routeMessage, htgt, strTruthy]
  have hiff : ∀ q, (q, OutMsg.message msg) ∈ (hubStep st p (HubData.message msg)).2 ↔
      ∃ cid, (cid, q) ∈ st.ports ∧ cid ≠ msg.source := by
    intro q
    rw [hroute]
    unfold broadcastForward
    constructor
    · intro hmem
      rcases List.mem_map.1 hmem with ⟨⟨c, q0⟩, he, heq⟩
      rcases List.mem_filter.1 he with ⟨hmem2, hne⟩
      have hq : q0 = q := congrArg Prod.fst heq
      subst hq
      exact ⟨c, hmem2, by simpa using hne⟩
    · rintro ⟨cid, hmem, hne⟩
      exact List.mem_map.2 ⟨(cid, q), List.mem_filter.2 ⟨hmem, by simpa using hne⟩, rfl⟩
  refine ⟨rfl, hiff, ?_⟩
  intro q hall hmem
  rcases (hiff q).1 hmem with ⟨cid, hc, hne⟩
  exact hne (hall cid hc)

/-- A concrete broadcast envelope from client a, used by the c1 witness. -/
def c1exMsg : SwarmMessage Nat :=
  { id := "m", source := "a", target := none, event := "e", payload := 0,
    timestamp := 0 }

/-- A concrete hub with client a on port 7 and client b on port 42, used by
the c1 witness. -/
def c1exHub : HubState Nat :=
  { ports := [("a", 7), ("b", 42)], connVar := fun _ => none }

/-- Witness: in a hub with clients a on port 7 and b on port 42, a broadcast
from a reaches port 42 and not port 7. -/
theorem c1_broadcast_all_but_source_witness :
    ((42 : PortId), OutMsg.message c1exMsg) ∈
      (hubStep c1exHub 7 (HubData.message c1exMsg)).2 ∧
    ((7 : PortId), OutMsg.message c1exMsg) ∉
      (hubStep c1exHub 7 (HubData.message c1exMsg)).2 := by
  constructor
  · exact ((c1_broadcast_all_but_source c1exHub 7 c1exMsg rfl).2.1 42).2
      ⟨"b", by simp [c1exHub], by simp [c1exMsg]⟩
  · refine (c1_broadcast_all_but_source c1exHub 7 c1exMsg rfl).2.2 7 ?_
    intro cid h
    simpa [c1exHub, c1exMsg] using h

/-- A concrete envelope whose target field is present but is the empty
string, used by the c2 counterexample. -/
def c2exMsg : SwarmMessage Nat :=
  { id := "m", source := "a", target := some "", event := "e", payload := 0,
    timestamp := 0 }

/-- A concrete hub with only client b on port 1, used by the c2
counterexample. -/
def c2exHub : HubState Nat :=
  { ports := [("b", 1)], connVar := fun _ => none }

/-- C2 counterexample: an envelope whose target field is present but equal
to the empty string is falsy in the worker's JavaScript truthiness test, so
the worker broadcasts it: although the Registry contains no entry for that
target, the envelope is delivered to client b on port 1, contradicting the
claim that it would be delivered to no endpoint. -/
theorem c2_counterexample :
    c2exMsg.target.isSome = true ∧
    mapGet c2exHub.ports "" = none ∧
    (hubStep c2exHub 0 (HubData.message c2exMsg)).2 =
      [(1, OutMsg.message c2exMsg)] := by
  refine ⟨rfl, rfl, ?_⟩
  simp [hubStep, routeMessage, strTruthy, broadcastForward, c2exHub, c2exMsg]
  intro h
  exact absurd h (by decide)

/-- C2 (amended): for every envelope routed by the hub whose target is
present and non-empty: if the Registry contains an endpoint for that target
the envelope is forwarded verbatim to that endpoint and to no other; if the
Registry contains no entry for that target it is delivered to no endpoint;
in both cases no error is raised (the step is total) and the Registry is
unchanged. -/
theorem c2_targeted_routing {A : Type} (st : HubState A) (p : PortId)
    (msg : SwarmMessage A) (t : String) (ht : msg.target = some t)
    (hne : t ≠ "") :
    (hubStep st p (HubData.message msg)).1 = st ∧
    (∀ q, mapGet st.ports t = some q →
      (hubStep st p (HubData.message msg)).2 = [(q, OutMsg.message msg)]) ∧
    (mapGet st.ports t = none → (hubStep st p (HubData.message msg)).2 = []) := by
  have hemp : t.isEmpty = false := by
    rcases h : t.isEmpty with _ | _
    · rfl
    · exact absurd ((String.isEmpty_iff t).1 h) hne
  have htr : strTruthy (some t) = true := by
    simp [strTruthy, hemp]
  refine ⟨rfl, ?_, ?_⟩
  · intro q hq
    simp [hubStep, routeMessage, ht, htr, hq]
  · intro hq
    simp [hubStep, routeMessage, ht, htr, hq]

/-- A concrete targeted envelope to client b, used by the c2 witness. -/
def c2exMsgB : SwarmMessage Nat :=
  { id := "m", source := "a", target := some "b", event := "e", payload := 0,
    timestamp := 0 }

/-- A concrete targeted envelope to absent client z, used by the c2 witness. -/
def c2exMsgZ : SwarmMessage Nat :=
  { id := "m", source := "a", target := some "z", event := "e", payload := 0,
    timestamp := 0 }

/-- A concrete hub with clients b (port 5) and c (port 6), used by the c2
witness. -/
def c2exHub2 : HubState Nat :=
  { ports := [("b", 5), ("c", 6)], connVar := fun _ => none }

/-- Witness: a message targeted at registered client b goes to port 5 only,
and a message targeted at absent client z goes nowhere. -/
theorem c2_targeted_routing_witness :
    (hubStep c2exHub2 9 (HubData.message c2exMsgB)).2 =
      [(5, OutMsg.message c2exMsgB)] ∧
    (hubStep c2exHub2 9 (HubData.message c2exMsgZ)).2 = [] := by
  constructor
  · exact (c2_targeted_routing c2exHub2 9 c2exMsgB "b" rfl (by decide)).2.1 5
      (by simp [c2exHub2, mapGet])
  · exact (c2_targeted_routing c2exHub2 9 c2exMsgZ "z" rfl (by decide)).2.2
      (by simp [c2exHub2, mapGet])

/-- C3: a register request inserts or overwrites the Registry entry for the
given clientId with the requesting endpoint, leaves every other entry
unchanged, sends exactly one acknowledgment carrying the same clientId back
to that endpoint, raises no error when the id was already registered (the
step is total and behaves identically), and after any sequence of hub
events the Registry keys stay duplicate-free, so it holds at most one
endpoint per ClientId. -/
theorem c3_register_ack_and_unique {A : Type} (st : HubState A) (p : PortId)
    (cid : String) :
    (hubStep st p (HubData.register cid)).2 = [(p, OutMsg.registered cid)] ∧
    mapGet (hubStep st p (HubData.register cid)).1.ports cid = some p ∧
    (∀ k, k ≠ cid →
      mapGet (hubStep st p (HubData.register cid)).1.ports k = mapGet st.ports k) ∧
    (∀ events : List (PortId × HubData A), (st.ports.map Prod.fst).Nodup →
      (((hubRun st events).ports).map Prod.fst).Nodup) := by
  refine ⟨rfl, ?_, ?_, ?_⟩
  · simpa [hubStep] using mapGet_mapSet_self st.ports cid p
  · intro k hk
    simpa [hubStep] using mapGet_mapSet_ne st.ports cid k p hk
  · intro events h
    exact hubRun_nodup_keys events st h

/-- A concrete hub with client a on port 1, used by the c3 witness. -/
def c3exHub : HubState Nat :=
  { ports := [("a", 1)], connVar := fun _ => none }

/-- Witness: registering client a again on port 2 overwrites the old entry,
acknowledges with the same id, and a further register/disconnect sequence
keeps the Registry keys duplicate-free. -/
theorem c3_register_ack_and_unique_witness :
    (hubStep c3exHub 2 (HubData.register "a")).2 = [(2, OutMsg.registered "a")] ∧
    mapGet (hubStep c3exHub 2 (HubData.register "a")).1.ports "a" = some 2 ∧
    mapGet (hubStep c3exHub 2 (HubData.register "a")).1.ports "b" =
      mapGet c3exHub.ports "b" ∧
    (((hubRun c3exHub [(3, HubData.register "b"), (3, HubData.disconnect)]).ports).map
      Prod.fst).Nodup := by
  refine ⟨(c3_register_ack_and_unique c3exHub 2 "a").1,
    (c3_register_ack_and_unique c3exHub 2 "a").2.1,
    (c3_register_ack_and_unique c3exHub 2 "a").2.2.1 "b" (by decide),
    (c3_register_ack_and_unique c3exHub 2 "a").2.2.2
      [(3, HubData.register "b"), (3, HubData.disconnect)] (by simp [c3exHub])⟩

/-! ## Client-side event dispatcher: SwarmRelay.handleMessage
(lib/swarm-relay.ts).

Handler functions are opaque TypeScript values; we model them by Nat
identifiers, and model which handlers throw by an oracle
throws : Nat -> Bool supplied to the dispatcher.  Dispatch is described by
the list of observable actions it performs, in order: handler invocations
and error-log entries.  That the embedding of handleMessage is a total
function into an action list is the image of the per-handler try/catch in
the source: a throwing handler produces a log action instead of aborting
dispatch, and no exception escapes. -/

/-- One observable action of SwarmRelay.handleMessage. -/
inductive Effect (A : Type) where
  | invokeWildcard (h : Nat) (event : String) (payload : A) (msg : SwarmMessage A)
  | invokeSpecific (h : Nat) (payload : A) (msg : SwarmMessage A)
  | logWildcardThrew (h : Nat)
  | logHandlerThrew (event : String) (h : Nat)
deriving DecidableEq, Repr

/-- Whether an action is a handler invocation (as opposed to a log entry). -/
def isInvoke : Effect A → Bool
  | Effect.invokeWildcard _ _ _ _ => true
  | Effect.invokeSpecific _ _ _ => true
  | _ => false

/-- First loop of handleMessage: invoke every wildcard handler with
(event, payload, message) inside try/catch, logging when it throws. -/
def runWildcardLoop (throws : Nat → Bool) (msg : SwarmMessage A) :
    List Nat → List (Effect A)
  | [] => []
  | h :: rest =>
    Effect.invokeWildcard h msg.event msg.payload msg ::
      (if throws h then
        Effect.logWildcardThrew h :: runWildcardLoop throws msg rest
      else runWildcardLoop throws msg rest)

/-- Second loop of handleMessage: invoke every handler subscribed to
message.event with (payload, message) inside try/catch, logging throws. -/
def runSpecificLoop (throws : Nat → Bool) (msg : SwarmMessage A) :
    List Nat → List (Effect A)
  | [] => []
  | h :: rest =>
    Effect.invokeSpecific h msg.payload msg ::
      (if throws h then
        Effect.logHandlerThrew msg.event h :: runSpecificLoop throws msg rest
      else runSpecificLoop throws msg rest)

/-- Generic JavaScript Map get for the handler table. -/
def jsMapGet {B : Type} (m : List (String × B)) (k : String) : Option B :=
  match m with
  | [] => none
  | (k0, v0) :: rest => if k0 = k then some v0 else jsMapGet rest k

/-- Generic JavaScript Map set (update in place or append). -/
def jsMapSet {B : Type} (m : List (String × B)) (k : String) (v : B) :
    List (String × B) :=
  match m with
  | [] => [(k, v)]
  | (k0, v0) :: rest =>
    if k0 = k then (k, v) :: rest else (k0, v0) :: jsMapSet rest k v

/-- Generic JavaScript Map delete. -/
def jsMapDelete {B : Type} (m : List (String × B)) (k : String) :
    List (String × B) :=
  match m with
  | [] => []
  | (k0, v0) :: rest =>
    if k0 = k then rest else (k0, v0) :: jsMapDelete rest k

/-- JavaScript Set add: append if absent (JS Sets iterate in insertion
order and adding an existing element does not move it). -/
def setAdd (s : List Nat) (h : Nat) : List Nat :=
  if h ∈ s then s else s ++ [h]

/-- State of one SwarmRelay instance (lib/swarm-relay.ts): own clientId,
connection state, the per-event handler table and the wildcard handler
set, both in insertion order. -/
structure RelayState (A : Type) where
  clientId : String
  _state : ConnectionState
  handlers : List (String × List Nat)
  wildcardHandlers : List Nat
deriving DecidableEq, Repr

/-- SwarmRelay.handleMessage: wildcard handlers first, then the handlers
subscribed to message.event (none when the table has no entry). -/
def handleMessage (throws : Nat → Bool) (st : RelayState A)
    (msg : SwarmMessage A) : List (Effect A) :=
  runWildcardLoop throws msg st.wildcardHandlers ++
    match jsMapGet st.handlers msg.event with
    | some hs => runSpecificLoop throws msg hs
    | none => []

/-- SwarmRelay.on: create the event's Set if missing, then add the handler. -/
def relayOn (st : RelayState A) (event : String) (h : Nat) : RelayState A :=
  let hs := match jsMapGet st.handlers event with
    | some s => s
    | none => []
  { st with handlers := jsMapSet st.handlers event (setAdd hs h) }

/-- SwarmRelay.off: remove the handler; drop the table entry when the Set
becomes empty. -/
def relayOff (st : RelayState A) (event : String) (h : Nat) : RelayState A :=
  match jsMapGet st.handlers event with
  | none => st
  | some s =>
    let s' := s.erase h
    if s'.isEmpty then { st with handlers := jsMapDelete st.handlers event }
    else { st with handlers := jsMapSet st.handlers event s' }

/-- SwarmRelay.onAny. -/
def relayOnAny (st : RelayState A) (h : Nat) : RelayState A :=
  { st with wildcardHandlers := setAdd st.wildcardHandlers h }

/-- SwarmRelay.offAny. -/
def relayOffAny (st : RelayState A) (h : Nat) : RelayState A :=
  { st with wildcardHandlers := st.wildcardHandlers.erase h }

/-! ### Dispatch lemmas -/

theorem filter_isInvoke_wildcardLoop (throws : Nat → Bool) (msg : SwarmMessage A)
    (l : List Nat) :
    (runWildcardLoop throws msg l).filter isInvoke =
      l.map (fun h => Effect.invokeWildcard h msg.event msg.payload msg) := by
  induction l with
  | nil => rfl
  | cons h rest ih =>
    by_cases ht : throws h
    · simp [runWildcardLoop, ht, isInvoke, ih]
    · simp [runWildcardLoop, ht, isInvoke, ih]

theorem filter_isInvoke_specificLoop (throws : Nat → Bool) (msg : SwarmMessage A)
    (l : List Nat) :
    (runSpecificLoop throws msg l).filter isInvoke =
      l.map (fun h => Effect.invokeSpecific h msg.payload msg) := by
  induction l with
  | nil => rfl
  | cons h rest ih =>
    by_cases ht : throws h
    · simp [runSpecificLoop, ht, isInvoke, ih]
    · simp [runSpecificLoop, ht, isInvoke, ih]

theorem log_mem_wildcardLoop (throws : Nat → Bool) (msg : SwarmMessage A)
    (l : List Nat) (h : Nat) (hmem : h ∈ l) (ht : throws h = true) :
    Effect.logWildcardThrew h ∈ runWildcardLoop throws msg l := by
  induction l with
  | nil => cases hmem
  | cons h0 rest ih =>
    rcases List.mem_cons.1 hmem with he | he
    · subst he
      simp [runWildcardLoop, ht]
    · by_cases ht0 : throws h0 <;> simp [runWildcardLoop, ht0, ih he]

theorem log_mem_specificLoop (throws : Nat → Bool) (msg : SwarmMessage A)
    (l : List Nat) (h : Nat) (hmem : h ∈ l) (ht : throws h = true) :
    Effect.logHandlerThrew msg.event h ∈ runSpecificLoop throws msg l := by
  induction l with
  | nil => cases hmem
  | cons h0 rest ih =>
    rcases List.mem_cons.1 hmem with he | he
    · subst he
      simp [runSpecificLoop, ht]
    · by_cases ht0 : throws h0 <;> simp [runSpecificLoop, ht0, ih he]

/-! ### Claims about the dispatcher -/

/-- C4: for every inbound envelope, the invocations performed by
handleMessage are exactly: every wildcard handler with
(event, payload, envelope) in subscription order, followed by every
handler subscribed to envelope.event with (payload, envelope) in
subscription order; handlers subscribed to other event names do not
appear. (Subscription order is list order: relayOn and relayOnAny append
new handlers at the end, as JavaScript Sets iterate in insertion order.) -/
theorem c4_dispatch_order (throws : Nat → Bool) (st : RelayState A)
    (msg : SwarmMessage A) :
    (handleMessage throws st msg).filter isInvoke =
      st.wildcardHandlers.map
        (fun h => Effect.invokeWildcard h msg.event msg.payload msg) ++
      ((jsMapGet st.handlers msg.event).getD []).map
        (fun h => Effect.invokeSpecific h msg.payload msg) := by
  unfold handleMessage
  rw [List.filter_append, filter_isInvoke_wildcardLoop]
  cases hg : jsMapGet st.handlers msg.event with
  | none => simp
  | some hs => simp [filter_isInvoke_specificLoop]

/-- C5: dispatch is isolated per handler: which handlers throw does not
change the invocation sequence (every remaining handler still runs), each
throwing handler is logged, and the embedding of handleMessage as a total
function reflects that no exception propagates out of the dispatch call. -/
theorem c5_handler_isolation (throws : Nat → Bool) (st : RelayState A)
    (msg : SwarmMessage A) :
    (handleMessage throws st msg).filter isInvoke =
      (handleMessage (fun _ => false) st msg).filter isInvoke ∧
    (∀ h, h ∈ st.wildcardHandlers → throws h = true →
      Effect.logWildcardThrew h ∈ handleMessage throws st msg) ∧
    (∀ h, h ∈ (jsMapGet st.handlers msg.event).getD [] → throws h = true →
      Effect.logHandlerThrew msg.event h ∈ handleMessage throws st msg) := by
  refine ⟨?_, ?_, ?_⟩
  · unfold handleMessage
    rw [List.filter_append, List.filter_append,
      filter_isInvoke_wildcardLoop, filter_isInvoke_wildcardLoop]
    cases hg : jsMapGet st.handlers msg.event with
    | none => rfl
    | some hs =>
      rw [filter_isInvoke_specificLoop, filter_isInvoke_specificLoop]
  · intro h hmem ht
    exact List.mem_append_left _ (log_mem_wildcardLoop throws msg _ h hmem ht)
  · intro h hmem ht
    cases hg : jsMapGet st.handlers msg.event with
    | none => rw [hg] at hmem; cases hmem
    | some hs =>
      rw [hg] at hmem
      refine List.mem_append_right _ ?_
      rw [hg]
      exact log_mem_specificLoop throws msg hs h hmem ht

/-- A concrete relay with wildcard handler 1 and handler 2 on event e, used
by the c5 witness. -/
def c5exRelay : RelayState Nat :=
  { clientId := "a", _state := ConnectionState.Connected,
    handlers := [("e", [2, 3])], wildcardHandlers := [1] }

/-- A concrete inbound envelope for event e, used by the c5 witness. -/
def c5exMsg : SwarmMessage Nat :=
  { id := "m", source := "b", target := some "a", event := "e", payload := 7,
    timestamp := 0 }

/-- Witness: with wildcard handler 1 and specific handlers 2 and 3 where 1
and 2 throw, the invocation sequence equals the no-throw sequence and both
throwing handlers are logged. -/
theorem c5_handler_isolation_witness :
    ((handleMessage (fun h => h == 1 || h == 2) c5exRelay c5exMsg).filter isInvoke =
      (handleMessage (fun _ => false) c5exRelay c5exMsg).filter isInvoke) ∧
    Effect.logWildcardThrew 1 ∈
      handleMessage (fun h => h == 1 || h == 2) c5exRelay c5exMsg ∧
    Effect.logHandlerThrew "e" 2 ∈
      handleMessage (fun h => h == 1 || h == 2) c5exRelay c5exMsg := by
  refine ⟨(c5_handler_isolation _ c5exRelay c5exMsg).1, ?_, ?_⟩
  · exact (c5_handler_isolation _ c5exRelay c5exMsg).2.1 1 (by simp [c5exRelay])
      (by decide)
  · have := (c5_handler_isolation (fun h => h == 1 || h == 2) c5exRelay c5exMsg).2.2
      2 (by simp [c5exRelay, c5exMsg, jsMapGet]) (by decide)
    simpa [c5exMsg] using this

/-! ## Message identifiers: generateId of lib/swarm-relay.ts.

The source builds an id by interpolating the integer Date.now() in
decimal, a dash, and a random base-36 fragment.  We model the two
environment inputs (clock and randomness) as explicit arguments. -/

/-- Decimal digits of a natural number, most significant first: the string
JavaScript interpolation produces for the integer Date.now(). -/
def natDigits (n : Nat) : List Char :=
  if _h : n < 10 then [Nat.digitChar n]
  else natDigits (n / 10) ++ [Nat.digitChar (n % 10)]
decreasing_by
  simp_wf
  exact Nat.div_lt_self (by omega) (by omega)

/-- generateId: decimal Date.now(), a dash, and the random fragment. -/
def generateId (now : Nat) (rand : String) : String :=
  String.mk (natDigits now) ++ "-" ++ rand

/-- Numeric value of a digit character. -/
def dval (c : Char) : Nat := c.toNat - 48

/-- Value of a most-significant-first digit list. -/
def digitsVal (l : List Char) : Nat := l.foldl (fun a c => 10 * a + dval c) 0

theorem digitsVal_append_singleton (l : List Char) (c : Char) :
    digitsVal (l ++ [c]) = 10 * digitsVal l + dval c := by
  simp [digitsVal, List.foldl_append]

theorem dval_digitChar (m : Nat) (hm : m < 10) : dval (Nat.digitChar m) = m := by
  interval_cases m <;> decide

theorem digitChar_ne_dash (m : Nat) (hm : m < 10) : Nat.digitChar m ≠ '-' := by
  interval_cases m <;> decide

theorem digitsVal_natDigits (n : Nat) : digitsVal (natDigits n) = n := by
  induction n using Nat.strong_induction_on with
  | _ n ih =>
    by_cases h : n < 10
    · rw [natDigits]
      simp [h, digitsVal, dval_digitChar n h]
    · rw [natDigits]
      simp only [h, dite_false]
      rw [digitsVal_append_singleton,
        ih (n / 10) (Nat.div_lt_self (by omega) (by omega)),
        dval_digitChar _ (Nat.mod_lt n (by omega))]
      omega

theorem natDigits_inj {n m : Nat} (h : natDigits n = natDigits m) : n = m := by
  have hn := digitsVal_natDigits n
  rw [h, digitsVal_natDigits] at hn
  exact hn.symm

theorem dash_not_mem_natDigits (n : Nat) : '-' ∉ natDigits n := by
  induction n using Nat.strong_induction_on with
  | _ n ih =>
    by_cases h : n < 10
    · rw [natDigits]
      simp [h]
      exact fun he => digitChar_ne_dash n h he.symm
    · rw [natDigits]
      simp only [h, dite_false]
      intro hmem
      rcases List.mem_append.1 hmem with hm | hm
      · exact ih (n / 10) (Nat.div_lt_self (by omega) (by omega)) hm
      · rcases List.mem_singleton.1 hm with he
        exact digitChar_ne_dash (n % 10) (Nat.mod_lt n (by omega)) he.symm

theorem splitAtDash (as : List Char) : ∀ cs bs ds : List Char, '-' ∉ as →
    '-' ∉ cs → as ++ '-' :: bs = cs ++ '-' :: ds → as = cs ∧ bs = ds := by
  induction as with
  | nil =>
    intro cs bs ds _ hcs heq
    cases cs with
    | nil => simpa using heq
    | cons c cs' =>
      rw [List.nil_append, List.cons_append, List.cons.injEq] at heq
      exact absurd (heq.1 ▸ List.mem_cons_self c cs') hcs
  | cons a as' ih =>
    intro cs bs ds has hcs heq
    cases cs with
    | nil =>
      rw [List.cons_append, List.nil_append, List.cons.injEq] at heq
      exact absurd (heq.1 ▸ List.mem_cons_self a as') has
    | cons c cs' =>
      rw [List.cons_append, List.cons_append, List.cons.injEq] at heq
      obtain ⟨h1, h2⟩ := ih cs' bs ds (fun hm => has (List.mem_cons_of_mem a hm))
        (fun hm => hcs (List.mem_cons_of_mem c hm)) heq.2
      exact ⟨by rw [heq.1, h1], h2⟩

/-- Two generateId calls whose clock/randomness inputs differ in either
component produce distinct identifiers. -/
theorem generateId_inj (n n' : Nat) (r r' : String)
    (h : generateId n r = generateId n' r') : n = n' ∧ r = r' := by
  have hd : (generateId n r).data = (generateId n' r').data :=
    congrArg String.data h
  simp only [generateId, String.data_append] at hd
  rw [List.append_assoc, List.append_assoc, List.singleton_append,
    List.singleton_append] at hd
  obtain ⟨h1, h2⟩ := splitAtDash (natDigits n) (natDigits n') r.data r'.data
    (dash_not_mem_natDigits n) (dash_not_mem_natDigits n') hd
  refine ⟨natDigits_inj h1, ?_⟩
  cases r
  cases r'
  exact congrArg String.mk (by simpa using h2)

/-! ## MockTransportAdapter (lib/testing/mock-transport-adapter.ts) and the
composed SwarmRelay-over-mock system.

The mock's handler registries only ever hold the relay's bound
handleMessage/handleError in the composed system, so their contents are
modelled by the two attachment flags of the System structure below. -/

/-- Observable state of a MockTransportAdapter. -/
structure MockTransportAdapter (A : Type) where
  _state : ConnectionState
  _clientId : Option String
  sentMessages : List (SwarmMessage A)
  connectCalled : Bool
  disconnectCalled : Bool
  connectError : Option ErrValue
  sendError : Option ErrValue
deriving DecidableEq, Repr

/-- MockTransportAdapter.connect: record the call and the clientId; throw
the injected connectError (state Error) or become Connected. -/
def mockConnect (m : MockTransportAdapter A) (clientId : String) :
    MockTransportAdapter A × Except ErrValue Unit :=
  let m1 := { m with connectCalled := true, _clientId := some clientId }
  match m1.connectError with
  | some e => ({ m1 with _state := ConnectionState.Error }, Except.error e)
  | none => ({ m1 with _state := ConnectionState.Connected }, Except.ok ())

/-- MockTransportAdapter.disconnect (its handler-set clearing is the
msgAttached/errAttached reset done by the System-level disconnect). -/
def mockDisconnect (m : MockTransportAdapter A) : MockTransportAdapter A :=
  { m with
      disconnectCalled := true
      _state := ConnectionState.Disconnected
      _clientId := none }

/-- MockTransportAdapter.send: throw the injected sendError before touching
sentMessages, else append the message. -/
def mockSend (m : MockTransportAdapter A) (msg : SwarmMessage A) :
    Except ErrValue (MockTransportAdapter A) :=
  match m.sendError with
  | some e => Except.error e
  | none => Except.ok { m with sentMessages := m.sentMessages ++ [msg] }

/-- A fresh MockTransportAdapter as constructed in tests. -/
def initMock (A : Type) : MockTransportAdapter A :=
  { _state := ConnectionState.Disconnected
    _clientId := none
    sentMessages := []
    connectCalled := false
    disconnectCalled := false
    connectError := none
    sendError := none }

/-- A SwarmRelay instance composed with a MockTransportAdapter.
msgAttached / errAttached say whether the relay's bound handleMessage /
handleError are currently registered with the transport (the only handlers
ever passed to onMessage/onError in this composition). -/
structure System (A : Type) where
  relay : RelayState A
  mock : MockTransportAdapter A
  msgAttached : Bool
  errAttached : Bool
deriving DecidableEq, Repr

/-- A fresh SwarmRelay over a fresh mock transport. -/
def initSystem (A : Type) (clientId : String) : System A :=
  { relay := { clientId := clientId, _state := ConnectionState.Disconnected,
               handlers := [], wildcardHandlers := [] }
    mock := initMock A
    msgAttached := false
    errAttached := false }

/-- The SwarmRelayError thrown by assertConnected. -/
def notConnectedError : ErrValue :=
  ErrValue.relayError "Not connected. Call connect() first."
    SwarmRelayErrorCode.NotConnected

/-- The catch clause of SwarmRelay.connect: a SwarmRelayError is rethrown
as is, anything else is wrapped as ConnectionFailed. -/
def wrapConnectError : ErrValue → ErrValue
  | ErrValue.relayError m c => ErrValue.relayError m c
  | ErrValue.plain _ =>
    ErrValue.relayError "Connection failed" SwarmRelayErrorCode.ConnectionFailed

/-- SwarmRelay.connect over the mock transport.  Returns the new system,
the list of onStateChange notifications fired (in order), and the call's
outcome.  Already Connected: warn and return, nothing changes. -/
def relayConnect (sys : System A) :
    System A × List ConnectionState × Except ErrValue Unit :=
  if sys.relay._state = ConnectionState.Connected then (sys, [], Except.ok ())
  else
    let s1 : System A :=
      { sys with
          relay := { sys.relay with _state := ConnectionState.Connecting }
          msgAttached := true
          errAttached := true }
    match mockConnect s1.mock s1.relay.clientId with
    | (m, Except.error e) =>
      ({ s1 with
           mock := m
           relay := { s1.relay with _state := ConnectionState.Error } },
       [ConnectionState.Connecting, ConnectionState.Error],
       Except.error (wrapConnectError e))
    | (m, Except.ok _) =>
      ({ s1 with
           mock := m
           relay := { s1.relay with _state := ConnectionState.Connected } },
       [ConnectionState.Connecting, ConnectionState.Connected], Except.ok ())

/-- SwarmRelay.disconnect over the mock transport: no-op when already
Disconnected, otherwise detach the transport handlers, disconnect the
transport, clear all subscriptions and enter Disconnected. -/
def relayDisconnect (sys : System A) : System A × List ConnectionState :=
  if sys.relay._state = ConnectionState.Disconnected then (sys, [])
  else
    ({ relay := { sys.relay with
                    handlers := []
                    wildcardHandlers := []
                    _state := ConnectionState.Disconnected }
       mock := mockDisconnect sys.mock
       msgAttached := false
       errAttached := false },
     [ConnectionState.Disconnected])

/-- SwarmRelay.send over the mock transport: assertConnected, then build
the envelope from generateId/Date.now and hand it to transport.send. -/
def relaySend (sys : System A) (target event : String) (payload : A)
    (now : Nat) (rand : String) : System A × Except ErrValue Unit :=
  if sys.relay._state ≠ ConnectionState.Connected then
    (sys, Except.error notConnectedError)
  else
    match mockSend sys.mock
      { id := generateId now rand, source := sys.relay.clientId,
        target := some target, event := event, payload := payload,
        timestamp := now } with
    | Except.error e => (sys, Except.error e)
    | Except.ok m => ({ sys with mock := m }, Except.ok ())

/-- SwarmRelay.broadcast over the mock transport: like send but with no
target field in the envelope. -/
def relayBroadcast (sys : System A) (event : String) (payload : A)
    (now : Nat) (rand : String) : System A × Except ErrValue Unit :=
  if sys.relay._state ≠ ConnectionState.Connected then
    (sys, Except.error notConnectedError)
  else
    match mockSend sys.mock
      { id := generateId now rand, source := sys.relay.clientId,
        target := none, event := event, payload := payload,
        timestamp := now } with
    | Except.error e => (sys, Except.error e)
    | Except.ok m => ({ sys with mock := m }, Except.ok ())

/-- MockTransportAdapter.simulateMessage on the composed system: the mock
invokes each registered message handler; in this composition that is the
relay's handleMessage when attached, nothing otherwise. -/
def simulateMessage (sys : System A) (throws : Nat → Bool)
    (msg : SwarmMessage A) : List (Effect A) :=
  if sys.msgAttached then handleMessage throws sys.relay msg else []

/-- User-level operations on the composed system, for quantifying over
arbitrary interaction histories.  The send/broadcast arguments include the
environment (clock and randomness) consumed by generateId; the setter
operations model assigning the mock's injectable error fields. -/
inductive Op (A : Type) where
  | connect
  | disconnect
  | onEvt (event : String) (h : Nat)
  | offEvt (event : String) (h : Nat)
  | onAnyH (h : Nat)
  | offAnyH (h : Nat)
  | send (target event : String) (payload : A) (now : Nat) (rand : String)
  | broadcast (event : String) (payload : A) (now : Nat) (rand : String)
  | setConnectError (e : Option ErrValue)
  | setSendError (e : Option ErrValue)

/-- Apply one operation, discarding outputs. -/
def applyOp (sys : System A) : Op A → System A
  | Op.connect => (relayConnect sys).1
  | Op.disconnect => (relayDisconnect sys).1
  | Op.onEvt e h => { sys with relay := relayOn sys.relay e h }
  | Op.offEvt e h => { sys with relay := relayOff sys.relay e h }
  | Op.onAnyH h => { sys with relay := relayOnAny sys.relay h }
  | Op.offAnyH h => { sys with relay := relayOffAny sys.relay h }
  | Op.send t e p now rand => (relaySend sys t e p now rand).1
  | Op.broadcast e p now rand => (relayBroadcast sys e p now rand).1
  | Op.setConnectError e => { sys with mock := { sys.mock with connectError := e } }
  | Op.setSendError e => { sys with mock := { sys.mock with sendError := e } }

/-- Run a history of operations from a starting system. -/
def runOps (sys : System A) (ops : List (Op A)) : System A :=
  ops.foldl applyOp sys

/-! ### System lemmas -/

/-- relayConnect either leaves the system untouched (already Connected) or
ends in Connected or Error. -/
theorem relayConnect_cases (sys : System A) :
    (relayConnect sys).1 = sys ∨
    (relayConnect sys).1.relay._state = ConnectionState.Connected ∨
    (relayConnect sys).1.relay._state = ConnectionState.Error := by
  by_cases hc : sys.relay._state = ConnectionState.Connected
  · left
    simp [relayConnect, hc]
  · rcases hm : mockConnect sys.mock sys.relay.clientId with ⟨m, r⟩
    cases r with
    | error e =>
      right; right
      simp [relayConnect, hc, hm]
    | ok u =>
      right; left
      simp [relayConnect, hc, hm]

/-- relayDisconnect either leaves the system untouched (already
Disconnected) or detaches the transport message handler. -/
theorem relayDisconnect_cases (sys : System A) :
    (relayDisconnect sys).1 = sys ∨ (relayDisconnect sys).1.msgAttached = false := by
  unfold relayDisconnect
  split
  · left; rfl
  · right; rfl

theorem relayOn_state (st : RelayState A) (e : String) (h : Nat) :
    (relayOn st e h)._state = st._state := rfl

theorem relayOff_state (st : RelayState A) (e : String) (h : Nat) :
    (relayOff st e h)._state = st._state := by
  unfold relayOff
  cases hg : jsMapGet st.handlers e with
  | none => rfl
  | some s =>
    by_cases he : (s.erase h).isEmpty
    · simp [he]
    · simp [he]

theorem relaySend_untouched (sys : System A) (t e : String) (p : A) (now : Nat)
    (rand : String) :
    (relaySend sys t e p now rand).1.relay = sys.relay ∧
    (relaySend sys t e p now rand).1.msgAttached = sys.msgAttached := by
  unfold relaySend
  split
  · exact ⟨rfl, rfl⟩
  · split <;> exact ⟨rfl, rfl⟩

theorem relayBroadcast_untouched (sys : System A) (e : String) (p : A) (now : Nat)
    (rand : String) :
    (relayBroadcast sys e p now rand).1.relay = sys.relay ∧
    (relayBroadcast sys e p now rand).1.msgAttached = sys.msgAttached := by
  unfold relayBroadcast
  split
  · exact ⟨rfl, rfl⟩
  · split <;> exact ⟨rfl, rfl⟩

/-- Invariant: a Disconnected relay has no message handler attached to the
transport (connect attaches before leaving Disconnected, disconnect
detaches on entering it). -/
def DiscDetached (sys : System A) : Prop :=
  sys.relay._state = ConnectionState.Disconnected → sys.msgAttached = false

theorem applyOp_DiscDetached (sys : System A) (op : Op A)
    (hI : DiscDetached sys) : DiscDetached (applyOp sys op) := by
  cases op with
  | connect =>
    show DiscDetached (relayConnect sys).1
    rcases relayConnect_cases sys with h | h | h
    · rw [h]; exact hI
    · intro hd; rw [h] at hd; cases hd
    · intro hd; rw [h] at hd; cases hd
  | disconnect =>
    show DiscDetached (relayDisconnect sys).1
    rcases relayDisconnect_cases sys with h | h
    · rw [h]; exact hI
    · intro _; exact h
  | onEvt e h =>
    intro hd
    have hd' : (relayOn sys.relay e h)._state = ConnectionState.Disconnected := hd
    rw [relayOn_state] at hd'
    exact hI hd'
  | offEvt e h =>
    intro hd
    have hd' : (relayOff sys.relay e h)._state = ConnectionState.Disconnected := hd
    rw [relayOff_state] at hd'
    exact hI hd'
  | onAnyH h => intro hd; exact hI hd
  | offAnyH h => intro hd; exact hI hd
  | send t e p now rand =>
    intro hd
    have hd' : (relaySend sys t e p now rand).1.relay._state =
        ConnectionState.Disconnected := hd
    rw [(relaySend_untouched sys t e p now rand).1] at hd'
    show (relaySend sys t e p now rand).1.msgAttached = false
    rw [(relaySend_untouched sys t e p now rand).2]
    exact hI hd'
  | broadcast e p now rand =>
    intro hd
    have hd' : (relayBroadcast sys e p now rand).1.relay._state =
        ConnectionState.Disconnected := hd
    rw [(relayBroadcast_untouched sys e p now rand).1] at hd'
    show (relayBroadcast sys e p now rand).1.msgAttached = false
    rw [(relayBroadcast_untouched sys e p now rand).2]
    exact hI hd'
  | setConnectError e => intro hd; exact hI hd
  | setSendError e => intro hd; exact hI hd

theorem runOps_DiscDetached (ops : List (Op A)) :
    ∀ sys : System A, DiscDetached sys → DiscDetached (runOps sys ops) := by
  induction ops with
  | nil => intro sys h; exact h
  | cons op rest ih =>
    intro sys h
    exact ih (applyOp sys op) (applyOp_DiscDetached sys op h)

theorem initSystem_DiscDetached (A : Type) (cid : String) :
    DiscDetached (initSystem A cid) := fun _ => rfl

/-! ### Claims about the SwarmRelay lifecycle over the mock transport -/

/-- C6: send and broadcast require Connected state: otherwise they fail
with the NotConnected SwarmRelayError and the transport's send is never
invoked (the whole system, including sentMessages, is untouched).  When
Connected they build an envelope whose id comes from generateId on the
current clock and randomness, whose timestamp is the current clock, whose
source is the instance's own ClientId, and (for send only) whose target is
the given target, and hand exactly that envelope to transport.send; ids
from different clock/randomness inputs are distinct. -/
theorem c6_send_broadcast_connected (sys : System A) (target event : String)
    (payload : A) (now : Nat) (rand : String) (now' : Nat) (rand' : String) :
    (sys.relay._state ≠ ConnectionState.Connected →
      relaySend sys target event payload now rand =
        (sys, Except.error notConnectedError) ∧
      relayBroadcast sys event payload now rand =
        (sys, Except.error notConnectedError)) ∧
    (sys.relay._state = ConnectionState.Connected →
      (sys.mock.sendError = none →
        relaySend sys target event payload now rand =
          ({ sys with mock := { sys.mock with sentMessages := sys.mock.sentMessages ++ [{ id := generateId now rand, source := sys.relay.clientId, target := some target, event := event, payload := payload, timestamp := now }] } }, Except.ok ()) ∧
        relayBroadcast sys event payload now rand =
          ({ sys with mock := { sys.mock with sentMessages := sys.mock.sentMessages ++ [{ id := generateId now rand, source := sys.relay.clientId, target := none, event := event, payload := payload, timestamp := now }] } }, Except.ok ())) ∧
      (∀ e, sys.mock.sendError = some e →
        relaySend sys target event payload now rand = (sys, Except.error e) ∧
        relayBroadcast sys event payload now rand = (sys, Except.error e))) ∧
    ((now, rand) ≠ (now', rand') → generateId now rand ≠ generateId now' rand') := by
  refine ⟨?_, ?_, ?_⟩
  · intro hns
    constructor
    · simp [relaySend, hns]
    · simp [relayBroadcast, hns]
  · intro hc
    constructor
    · intro hse
      constructor
      · simp [relaySend, hc, mockSend, hse]
      · simp [relayBroadcast, hc, mockSend, hse]
    · intro e hse
      constructor
      · simp [relaySend, hc, mockSend, hse]
      · simp [relayBroadcast, hc, mockSend, hse]
  · intro hne heq
    obtain ⟨h1, h2⟩ := generateId_inj now now' rand rand' heq
    exact hne (by rw [h1, h2])

/-- Witness: a send while Disconnected fails with NotConnected and changes
nothing; a send right after a successful connect succeeds; ids from
different clocks differ. -/
theorem c6_send_broadcast_connected_witness :
    relaySend (initSystem Nat "a") "b" "e" 5 1 "r" =
      (initSystem Nat "a", Except.error notConnectedError) ∧
    (relaySend (runOps (initSystem Nat "a") [Op.connect]) "b" "e" 5 1 "r").2 =
      Except.ok () ∧
    generateId 1 "r" ≠ generateId 2 "r" := by
  refine ⟨((c6_send_broadcast_connected (initSystem Nat "a") "b" "e" 5 1 "r" 2
      "r").1 (by decide)).1, ?_,
    (c6_send_broadcast_connected (initSystem Nat "a") "b" "e" 5 1 "r" 2
      "r").2.2 (by decide)⟩
  have h := (((c6_send_broadcast_connected (runOps (initSystem Nat "a")
    [Op.connect]) "b" "e" 5 1 "r" 2 "r").2.1 (by decide)).1 (by decide)).1
  rw [h]

/-- C7 counterexample: a handler can be subscribed while the relay is
Disconnected (on does not check the state); calling disconnect() in that
state hits the early return and does not clear the subscription, so the
claim that disconnect() clears all subscriptions regardless of state is
false on the code. -/
theorem c7_counterexample :
    (runOps (initSystem Nat "a") [Op.onEvt "e" 0]).relay._state =
      ConnectionState.Disconnected ∧
    (relayDisconnect (runOps (initSystem Nat "a")
      [Op.onEvt "e" 0])).1.relay.handlers = [("e", [0])] := by
  exact ⟨by decide, by decide⟩

/-- C7 (amended): for every reachable system: if disconnect() is called in
a state other than Disconnected it clears all per-event and wildcard
subscriptions; and in every case no inbound message simulated after the
disconnect() call invokes any handler (when already Disconnected the call
is a no-op that leaves subscriptions in place, but no transport message
handler is attached, so nothing is dispatched). -/
theorem c7_disconnect_clears_and_silences (A : Type) (cid : String)
    (ops : List (Op A)) (msg : SwarmMessage A) (throws : Nat → Bool) :
    ((runOps (initSystem A cid) ops).relay._state ≠ ConnectionState.Disconnected →
      (relayDisconnect (runOps (initSystem A cid) ops)).1.relay.handlers = [] ∧
      (relayDisconnect (runOps (initSystem A cid) ops)).1.relay.wildcardHandlers = []) ∧
    simulateMessage (relayDisconnect (runOps (initSystem A cid) ops)).1
      throws msg = [] := by
  constructor
  · intro hne
    constructor
    · simp [relayDisconnect, hne]
    · simp [relayDisconnect, hne]
  · have hI : DiscDetached (runOps (initSystem A cid) ops) :=
      runOps_DiscDetached ops _ (initSystem_DiscDetached A cid)
    by_cases hd : (runOps (initSystem A cid) ops).relay._state =
      ConnectionState.Disconnected
    · have h1 : relayDisconnect (runOps (initSystem A cid) ops) =
          (runOps (initSystem A cid) ops, []) := by
        simp [relayDisconnect, hd]
      rw [h1]
      simp [simulateMessage, hI hd]
    · have h2 : (relayDisconnect (runOps (initSystem A cid) ops)).1.msgAttached =
          false := by
        simp [relayDisconnect, hd]
      simp [simulateMessage, h2]

/-- A concrete inbound envelope used by the c7 witness. -/
def c7exMsg : SwarmMessage Nat :=
  { id := "m", source := "b", target := none, event := "e", payload := 3,
    timestamp := 0 }

/-- Witness: after connect, on, onAny and then disconnect, both handler
tables are empty and a simulated inbound message dispatches nothing. -/
theorem c7_disconnect_clears_and_silences_witness :
    (relayDisconnect (runOps (initSystem Nat "a")
      [Op.connect, Op.onEvt "e" 1, Op.onAnyH 2])).1.relay.handlers = [] ∧
    (relayDisconnect (runOps (initSystem Nat "a")
      [Op.connect, Op.onEvt "e" 1, Op.onAnyH 2])).1.relay.wildcardHandlers = [] ∧
    simulateMessage (relayDisconnect (runOps (initSystem Nat "a")
      [Op.connect, Op.onEvt "e" 1, Op.onAnyH 2])).1 (fun _ => false) c7exMsg = [] := by
  obtain ⟨h1, h2⟩ := (c7_disconnect_clears_and_silences Nat "a"
    [Op.connect, Op.onEvt "e" 1, Op.onAnyH 2] c7exMsg (fun _ => false)).1
    (by decide)
  exact ⟨h1, h2, (c7_disconnect_clears_and_silences Nat "a"
    [Op.connect, Op.onEvt "e" 1, Op.onAnyH 2] c7exMsg (fun _ => false)).2⟩

/-- C8: connect() while already Connected is a no-op (no state change, no
onStateChange notification, no error); disconnect() while already
Disconnected is a no-op; and connect() from Disconnected with a working
transport fires exactly the notifications Connecting then Connected, once
each, after which a second connect() is a no-op, so two connects in a row
produce exactly the one transition sequence
Disconnected to Connecting to Connected. -/
theorem c8_connect_noop_and_single_transition (sys : System A) :
    (sys.relay._state = ConnectionState.Connected →
      relayConnect sys = (sys, [], Except.ok ())) ∧
    (sys.relay._state = ConnectionState.Disconnected →
      relayDisconnect sys = (sys, [])) ∧
    (sys.relay._state = ConnectionState.Disconnected →
      sys.mock.connectError = none →
      (relayConnect sys).2.1 =
        [ConnectionState.Connecting, ConnectionState.Connected] ∧
      (relayConnect sys).2.2 = Except.ok () ∧
      relayConnect (relayConnect sys).1 =
        ((relayConnect sys).1, [], Except.ok ())) := by
  have hnoop : ∀ X : System A, X.relay._state = ConnectionState.Connected →
      relayConnect X = (X, [], Except.ok ()) := by
    intro X hX
    simp [relayConnect, hX]
  refine ⟨hnoop sys, ?_, ?_⟩
  · intro hd
    simp [relayDisconnect, hd]
  · intro hd hce
    have hns : ¬sys.relay._state = ConnectionState.Connected := by
      rw [hd]
      intro h
      cases h
    have hstate : (relayConnect sys).1.relay._state = ConnectionState.Connected := by
      simp [relayConnect, hns, mockConnect, hce]
    refine ⟨?_, ?_, hnoop _ hstate⟩
    · simp [relayConnect, hns, mockConnect, hce]
    · simp [relayConnect, hns, mockConnect, hce]

/-- Witness: from a fresh system, connect fires Connecting then Connected;
a second connect is a no-op; disconnect on the fresh system is a no-op. -/
theorem c8_connect_noop_and_single_transition_witness :
    relayConnect (runOps (initSystem Nat "a") [Op.connect]) =
      (runOps (initSystem Nat "a") [Op.connect], [], Except.ok ()) ∧
    relayDisconnect (initSystem Nat "a") = (initSystem Nat "a", []) ∧
    (relayConnect (initSystem Nat "a")).2.1 =
      [ConnectionState.Connecting, ConnectionState.Connected] := by
  refine ⟨(c8_connect_noop_and_single_transition (runOps (initSystem Nat "a")
      [Op.connect])).1 (by decide),
    (c8_connect_noop_and_single_transition (initSystem Nat "a")).2.1 (by decide),
    ((c8_connect_noop_and_single_transition (initSystem Nat "a")).2.2
      (by decide) (by decide)).1⟩

/-! ## SharedWorkerTransport (lib/transport/shared-worker-transport.ts):
the handshake/disconnect interaction.

The pending connect() promise, its 5000 ms timer and the stored
handshakeAbort callback are modelled explicitly; promise settlement and
port operations appear as effects emitted by each call, in order, so that
a rejection emitted by swDisconnect itself is one that happens
synchronously with respect to the disconnect call. -/

/-- The fixed handshake timeout of the source, in milliseconds. -/
def handshakeTimeoutMs : Nat := 5000

/-- An observable effect of a SharedWorkerTransport operation. -/
inductive SWEffect where
  | rejectPending (message : String) (code : SwarmRelayErrorCode)
  | resolvePending
  | timerStarted (ms : Nat)
  | timerCleared
  | postRegister (clientId : String)
  | postDisconnect
  | portClosed
deriving DecidableEq, Repr

/-- State of one SharedWorkerTransport: connection state, whether port and
worker references are live, whether the handshakeAbort callback is stored
(a handshake is outstanding), and whether its timeout timer is pending. -/
structure SWTransport where
  _state : ConnectionState
  portOpen : Bool
  workerSet : Bool
  handshakeAbort : Bool
  timerActive : Bool
deriving DecidableEq, Repr

/-- A fresh SharedWorkerTransport. -/
def initSW : SWTransport :=
  { _state := ConnectionState.Disconnected, portOpen := false,
    workerSet := false, handshakeAbort := false, timerActive := false }

/-- connect(clientId) up to the point where it awaits the handshake:
no-op when already Connected; otherwise enter Connecting, create the
worker and port, then handshake() starts the 5000 ms timer, installs the
abort callback and posts the register control message. -/
def swConnectPending (st : SWTransport) (clientId : String) :
    SWTransport × List SWEffect :=
  if st._state = ConnectionState.Connected then (st, [])
  else
    ({ st with
         _state := ConnectionState.Connecting
         portOpen := true
         workerSet := true
         timerActive := true
         handshakeAbort := true },
     [SWEffect.timerStarted handshakeTimeoutMs, SWEffect.postRegister clientId])

/-- The handshake timeout firing: clears the abort callback and rejects
the pending promise with the registration-timed-out error. -/
def swTimerFire (st : SWTransport) : SWTransport × List SWEffect :=
  if st.timerActive then
    ({ st with timerActive := false, handshakeAbort := false },
     [SWEffect.rejectPending "SharedWorker registration timed out"
        SwarmRelayErrorCode.ConnectionFailed])
  else (st, [])

/-- disconnect(): if a handshake is outstanding, invoke its abort callback
(clear the timer, reject the pending promise with the Connection aborted
error) and null the callback; then post the disconnect control message and
close the port when open; then cleanup and enter Disconnected. -/
def swDisconnect (st : SWTransport) : SWTransport × List SWEffect :=
  let r1 :=
    if st.handshakeAbort then
      ({ st with timerActive := false, handshakeAbort := false },
       [SWEffect.timerCleared,
        SWEffect.rejectPending "Connection aborted"
          SwarmRelayErrorCode.ConnectionFailed])
    else (st, ([] : List SWEffect))
  let r2 :=
    if r1.1.portOpen then (r1.1, [SWEffect.postDisconnect, SWEffect.portClosed])
    else (r1.1, ([] : List SWEffect))
  ({ r2.1 with
       portOpen := false
       workerSet := false
       _state := ConnectionState.Disconnected },
   r1.2 ++ r2.2)

/-- C9: calling disconnect() while a handshake is outstanding aborts it
immediately: the very first effects of the disconnect call itself are the
timer cancellation and the rejection of the in-flight connect() promise
with the Connection aborted condition (so the abort is synchronous with
respect to disconnect and does not wait for the 5000 ms timeout), the
abort callback and timer are cleared, the transport ends Disconnected, and
a later timer expiry is a no-op. -/
theorem c9_disconnect_aborts_pending_handshake (st : SWTransport)
    (h : st.handshakeAbort = true) :
    ((swDisconnect st).2.take 2 =
      [SWEffect.timerCleared,
       SWEffect.rejectPending "Connection aborted"
         SwarmRelayErrorCode.ConnectionFailed]) ∧
    (swDisconnect st).1.handshakeAbort = false ∧
    (swDisconnect st).1.timerActive = false ∧
    (swDisconnect st).1._state = ConnectionState.Disconnected ∧
    swTimerFire (swDisconnect st).1 = ((swDisconnect st).1, []) := by
  by_cases hp : st.portOpen = true
  · refine ⟨?_, ?_, ?_, ?_, ?_⟩ <;> simp [swDisconnect, swTimerFire, h, hp]
  · refine ⟨?_, ?_, ?_, ?_, ?_⟩ <;> simp [swDisconnect, swTimerFire, h, hp]

/-- Witness: start a connect on a fresh transport (handshake outstanding),
then disconnect; the abort effects and cleared state are observed. -/
theorem c9_disconnect_aborts_pending_handshake_witness :
    ((swDisconnect (swConnectPending initSW "a").1).2.take 2 =
      [SWEffect.timerCleared,
       SWEffect.rejectPending "Connection aborted"
         SwarmRelayErrorCode.ConnectionFailed]) ∧
    (swDisconnect (swConnectPending initSW "a").1).1.handshakeAbort = false ∧
    (swDisconnect (swConnectPending initSW "a").1).1.timerActive = false ∧
    (swDisconnect (swConnectPending initSW "a").1).1._state =
      ConnectionState.Disconnected ∧
    swTimerFire (swDisconnect (swConnectPending initSW "a").1).1 =
      ((swDisconnect (swConnectPending initSW "a").1).1, []) :=
  c9_disconnect_aborts_pending_handshake (swConnectPending initSW "a").1
    (by decide)

/-! ### Claim about MockTransportAdapter.send -/

/-- Repeated MockTransportAdapter.send calls, keeping the state of a
failing call unchanged (a throw leaves the adapter as it was). -/
def mockSendAll (m : MockTransportAdapter A) (msgs : List (SwarmMessage A)) :
    MockTransportAdapter A :=
  msgs.foldl
    (fun acc x =>
      match mockSend acc x with
      | Except.ok m2 => m2
      | Except.error _ => acc) m

/-- C10: MockTransportAdapter.send throws exactly the injected sendError
when set, leaving sentMessages (indeed the whole adapter) unchanged; with
no sendError it appends precisely the given message at the end of
sentMessages, so successive sends record all messages in send order. -/
theorem c10_mock_send_records_in_order (m : MockTransportAdapter A)
    (msg : SwarmMessage A) :
    (∀ e, m.sendError = some e → mockSend m msg = Except.error e) ∧
    (m.sendError = none →
      mockSend m msg =
        Except.ok { m with sentMessages := m.sentMessages ++ [msg] }) ∧
    (∀ msgs : List (SwarmMessage A), m.sendError = none →
      mockSendAll m msgs = { m with sentMessages := m.sentMessages ++ msgs }) := by
  refine ⟨?_, ?_, ?_⟩
  · intro e hse
    simp [mockSend, hse]
  · intro hse
    simp [mockSend, hse]
  · intro msgs
    induction msgs generalizing m with
    | nil =>
      intro hse
      simp [mockSendAll]
    | cons x rest ih =>
      intro hse
      have hstep : mockSendAll m (x :: rest) =
          mockSendAll { m with sentMessages := m.sentMessages ++ [x] } rest := by
        simp [mockSendAll, mockSend, hse]
      rw [hstep, ih { m with sentMessages := m.sentMessages ++ [x] } hse]
      simp

/-- A concrete mock message used by the c10 witness. -/
def c10exMsg : SwarmMessage Nat :=
  { id := "m", source := "a", target := none, event := "e", payload := 1,
    timestamp := 0 }

/-- A second concrete mock message used by the c10 witness. -/
def c10exMsg2 : SwarmMessage Nat :=
  { id := "n", source := "a", target := some "b", event := "f", payload := 2,
    timestamp := 1 }

/-- A mock with an injected send error, used by the c10 witness. -/
def c10exMockErr : MockTransportAdapter Nat :=
  { initMock Nat with sendError := some (ErrValue.plain 7) }

/-- Witness: with an injected error, send throws it; without, two sends
record both messages in order. -/
theorem c10_mock_send_records_in_order_witness :
    mockSend c10exMockErr c10exMsg = Except.error (ErrValue.plain 7) ∧
    mockSendAll (initMock Nat) [c10exMsg, c10exMsg2] =
      { initMock Nat with sentMessages := [c10exMsg, c10exMsg2] } := by
  constructor
  · exact (c10_mock_send_records_in_order c10exMockErr c10exMsg).1
      (ErrValue.plain 7) (by decide)
  · have h := (c10_mock_send_records_in_order (initMock Nat) c10exMsg).2.2
      [c10exMsg, c10exMsg2] (by decide)
    simpa [initMock] using h
